import Mathlib

/-!
Verification of the SRT → After Effects JSX conversion scripts
(`src/CapEdify/srt_to_jsx.py` and `src/CapEdify/srt_to_jsx_converter.py`).

Strings are modelled as `List Char`; Python floats are modelled as exact
rationals (`Rat`); Python exceptions are modelled with `Except`/`Option`.
Each Python function is translated into a Lean definition of the same name
(suffixed `_jsx` for `srt_to_jsx.py` and `_conv` for `srt_to_jsx_converter.py`
when the two files differ).
-/

deriving instance DecidableEq for Except

/-- Whitespace characters recognised by Python `str.strip()` and by `\s` in an
ASCII regular expression: space, tab, newline, carriage return, vertical tab,
form feed.  (Unicode whitespace is not modelled; none of the inputs considered
here contain any.) -/
def isPyWs (c : Char) : Bool :=
  c = ' ' || c = '\t' || c = '\n' || c = '\r' || c = '\x0b' || c = '\x0c'

/-- Python `str.strip()`: drop leading and trailing whitespace. -/
def pyStrip (cs : List Char) : List Char :=
  ((cs.dropWhile isPyWs).reverse.dropWhile isPyWs).reverse

/-- Python `str.split(sep)` for a single-character separator `sep`
(as used with `':'`, `'.'` and `'\n'` in both scripts).
`"".split(c)` returns `[""]`, and adjacent separators yield empty fields. -/
def pySplitChar (sep : Char) : List Char → List (List Char)
  | [] => [[]]
  | c :: rest =>
      let r := pySplitChar sep rest
      if c = sep then [] :: r
      else
        match r with
        | chunk :: more => (c :: chunk) :: more
        | [] => [[c]]

/-- Numeric value of a decimal digit character. -/
def digitVal (c : Char) : Nat := c.toNat - 48

/-- Value of a non-empty string of decimal digits. -/
def digitsVal (ds : List Char) : Nat :=
  ds.foldl (fun n d => 10 * n + digitVal d) 0

/-- Python `int(s)` restricted to the forms occurring here: surrounding
whitespace, an optional sign, then one or more ASCII decimal digits.
(CPython additionally accepts underscores between digits and non-ASCII
digits; no input considered in this development uses those.) -/
def pyInt? (cs : List Char) : Option Int :=
  match pyStrip cs with
  | [] => none
  | c :: ds =>
      if c = '+' then
        if !ds.isEmpty && ds.all Char.isDigit then some (digitsVal ds) else none
      else if c = '-' then
        if !ds.isEmpty && ds.all Char.isDigit then some (-(digitsVal ds : Int)) else none
      else if (c :: ds).all Char.isDigit then some (digitsVal (c :: ds)) else none

/-- Unsigned part of Python `float(s)`: decimal digits with at most one
decimal point and at least one digit (`"12"`, `"12."`, `".5"`, `"12.5"`).
(CPython additionally accepts exponents, `inf` and `nan`; no input considered
in this development uses those.) -/
def pyFloatMag? (cs : List Char) : Option Rat :=
  match pySplitChar '.' cs with
  | [ipart] =>
      if !ipart.isEmpty && ipart.all Char.isDigit then some (digitsVal ipart : Rat) else none
  | [ipart, fpart] =>
      if (!ipart.isEmpty || !fpart.isEmpty) && ipart.all Char.isDigit && fpart.all Char.isDigit then
        some ((digitsVal ipart : Rat) + (digitsVal fpart : Rat) / (10 : Rat) ^ fpart.length)
      else none
  | _ => none

/-- Python `float(s)` restricted as in `pyFloatMag?`, with surrounding
whitespace and an optional sign. -/
def pyFloat? (cs : List Char) : Option Rat :=
  match pyStrip cs with
  | [] => none
  | c :: rest =>
      if c = '+' then pyFloatMag? rest
      else if c = '-' then (pyFloatMag? rest).map (fun q => -q)
      else pyFloatMag? (c :: rest)

/-- `parse_srt_time` (identical in both scripts, lines 11–18 of
`srt_to_jsx.py` and 12–19 of `srt_to_jsx_converter.py`):
replace `','` by `'.'`, split on `':'`, read `parts[0]` as int hours,
`parts[1]` as int minutes, `parts[2]` as float seconds, and return
`hours*3600 + minutes*60 + seconds`.  The Python code indexes only
`parts[0..2]`: with fewer than three fields it raises `IndexError`
(modelled as `none`), and any fields beyond the third are ignored;
a failed `int`/`float` conversion raises `ValueError` (also `none`). -/
def parse_srt_time (cs : List Char) : Option Rat :=
  let fixed := cs.map (fun c => if c = ',' then '.' else c)
  match pySplitChar ':' fixed with
  | p0 :: p1 :: p2 :: _ =>
      match pyInt? p0, pyInt? p1, pyFloat? p2 with
      | some h, some m, some s => some ((h : Rat) * 3600 + (m : Rat) * 60 + s)
      | _, _, _ => none
  | _ => none

/-- The colon-fields of the comma-fixed timestamp string, as indexed by
`parse_srt_time` (`parts[0]`, `parts[1]`, `parts[2]`). -/
def timeParts (cs : List Char) : List (List Char) :=
  pySplitChar ':' (cs.map (fun c => if c = ',' then '.' else c))

/-- The regular expression `\d{2}:\d{2}:\d{2},\d{3}` applied at the start of a
string (one timestamp group of the timing-line pattern at line 37 of
`srt_to_jsx.py`): on success, returns the twelve matched characters and the
rest of the string. -/
def matchTime : List Char → Option (List Char × List Char)
  | a :: b :: c1 :: c :: d :: c2 :: e :: f :: c3 :: g :: h :: i :: rest =>
      if a.isDigit && b.isDigit && (c1 = ':' : Bool) && c.isDigit && d.isDigit &&
         (c2 = ':' : Bool) && e.isDigit && f.isDigit && (c3 = ',' : Bool) &&
         g.isDigit && h.isDigit && i.isDigit
      then some ([a, b, c1, c, d, c2, e, f, c3, g, h, i], rest)
      else none
  | _ => none

/-- `re.match` of the full timing-line pattern
`(\d{2}:\d{2}:\d{2},\d{3})\s*-->\s*(\d{2}:\d{2}:\d{2},\d{3})`
(line 37 of `srt_to_jsx.py`): anchored at the start of the line, matching a
prefix (no end anchor), returning the two captured timestamp groups. -/
def timeLineMatch (cs : List Char) : Option (List Char × List Char) :=
  match matchTime cs with
  | none => none
  | some (g1, r1) =>
      match r1.dropWhile isPyWs with
      | '-' :: '-' :: '>' :: r3 =>
          match matchTime (r3.dropWhile isPyWs) with
          | none => none
          | some (g2, _) => some (g1, g2)
      | _ => none

/-- One-pass implementation of Python `re.split(r'\n\s*\n', s)` (line 26 of
`srt_to_jsx.py`, line 29 of `srt_to_jsx_converter.py`).  A match of the
pattern is a maximal run of whitespace containing at least two newlines,
taken from the run's first newline to its last newline (the regex is anchored
on a leading and a trailing `\n`, with `\s*` greedy in between); whitespace of
the run before its first newline stays with the preceding chunk, and
whitespace after its last newline stays with the following chunk.
State: `acc` is the current chunk reversed; `pend = some p` means we are
inside a whitespace run whose first newline has been seen, with `p` the run
characters from that newline on, reversed. -/
def reSplitAux : List Char → List Char → Option (List Char) → List (List Char)
  | [], acc, none => [acc.reverse]
  | [], acc, some p =>
      if 2 ≤ p.count '\n' then
        [acc.reverse, (p.takeWhile (fun x => !(x = '\n' : Bool))).reverse]
      else [(p ++ acc).reverse]
  | c :: cs, acc, none =>
      if c = '\n' then reSplitAux cs acc (some ['\n'])
      else reSplitAux cs (c :: acc) none
  | c :: cs, acc, some p =>
      if c = '\n' then reSplitAux cs acc (some ('\n' :: p))
      else if isPyWs c then reSplitAux cs acc (some (c :: p))
      else if 2 ≤ p.count '\n' then
        acc.reverse :: reSplitAux cs (c :: p.takeWhile (fun x => !(x = '\n' : Bool))) none
      else reSplitAux cs (c :: (p ++ acc)) none

/-- `re.split(r'\n\s*\n', s)`. -/
def reSplit (cs : List Char) : List (List Char) := reSplitAux cs [] none

/-- Python `str.split(' --> ')` (line 39 of `srt_to_jsx_converter.py`):
split on non-overlapping, leftmost occurrences of the five-character
separator. -/
def splitArrow : List Char → List (List Char)
  | ' ' :: '-' :: '-' :: '>' :: ' ' :: rest => [] :: splitArrow rest
  | c :: rest =>
      match splitArrow rest with
      | chunk :: more => (c :: chunk) :: more
      | [] => [[c]]
  | [] => [[]]

/-- Python `s.replace(a, r)` where the replacement `r` may be several
characters long (used for escaping in both scripts). -/
def replaceChar (a : Char) (r : List Char) (cs : List Char) : List Char :=
  (cs.map (fun c => if c = a then r else [c])).flatten

/-- The parse-time escaping of `srt_to_jsx.py` line 44:
`text.replace('"', '\\"').replace('\n', '\\r')`. -/
def escapeJsxParse (cs : List Char) : List Char :=
  replaceChar '\n' ['\\', 'r'] (replaceChar '"' ['\\', '"'] cs)

/-- The generation-time escaping of `srt_to_jsx_converter.py` line 74:
`caption['text'].replace('"', '\\"').replace('\n', '\\n')`. -/
def escapeConvGen (cs : List Char) : List Char :=
  replaceChar '\n' ['\\', 'n'] (replaceChar '"' ['\\', '"'] cs)

/-- A subtitle entry of `srt_to_jsx.py` (the dict appended at lines 46–50:
keys `start`, `end`, `text`; the block's first line is not stored).
The source key `end` is a Lean keyword, hence the field name `endTime`. -/
structure SubEntry where
  start : Rat
  endTime : Rat
  text : List Char
deriving DecidableEq, Repr

/-- A caption entry of `srt_to_jsx_converter.py` (the dict appended at
lines 44–49: keys `sequence`, `start`, `end`, `text`). -/
structure Caption where
  sequence : List Char
  start : Rat
  endTime : Rat
  text : List Char
deriving DecidableEq, Repr

/-- Processing of one block by the loop body of `parse_srt_file` in
`srt_to_jsx.py` (lines 29–50): fewer than 3 lines or an unmatched timing
line skips the block (`ok none`); a matched timing line calls
`parse_srt_time` on both groups with no exception handler, so a conversion
failure would propagate out of the whole parse (`error ()`). -/
def parseBlock_jsx (block : List Char) : Except Unit (Option SubEntry) :=
  match pySplitChar '\n' (pyStrip block) with
  | _ :: timeLine :: textLines =>
      if textLines.isEmpty then .ok none
      else
        match timeLineMatch timeLine with
        | none => .ok none
        | some (g1, g2) =>
            match parse_srt_time g1, parse_srt_time g2 with
            | some s, some e =>
                .ok (some ⟨s, e, escapeJsxParse (pyStrip (List.intercalate [' '] textLines))⟩)
            | _, _ => .error ()
  | _ => .ok none

/-- The block loop of `parse_srt_file` in `srt_to_jsx.py`, accumulating
accepted entries in order (`subtitles.append(...)`); an exception from any
block aborts the whole parse. -/
def parseBlocks_jsx : List (List Char) → List SubEntry → Except Unit (List SubEntry)
  | [], subs => .ok subs
  | b :: bs, subs =>
      match parseBlock_jsx b with
      | .error e => .error e
      | .ok none => parseBlocks_jsx bs subs
      | .ok (some r) => parseBlocks_jsx bs (subs ++ [r])

/-- `parse_srt_file` of `srt_to_jsx.py` (lines 20–52), applied to the text
content of the file: split the stripped content on `\n\s*\n` and process each
block. -/
def parse_srt_file_jsx (content : List Char) : Except Unit (List SubEntry) :=
  parseBlocks_jsx (reSplit (pyStrip content)) []

/-- Processing of one block by the loop body of `parse_srt_file` in
`srt_to_jsx_converter.py` (lines 31–49): fewer than 3 lines skips the block;
otherwise `start_time, end_time = time_line.split(' --> ')` raises
`ValueError` unless the split has exactly two fields, and `parse_srt_time`
raises on unparseable fields; there is no exception handler, so either
failure propagates out of the whole parse (`error ()`). -/
def parseBlock_conv (block : List Char) : Except Unit (Option Caption) :=
  match pySplitChar '\n' (pyStrip block) with
  | l0 :: l1 :: textLines =>
      if textLines.isEmpty then .ok none
      else
        match splitArrow (pyStrip l1) with
        | [st, en] =>
            match parse_srt_time st, parse_srt_time en with
            | some s, some e =>
                .ok (some ⟨pyStrip l0, s, e, pyStrip (List.intercalate ['\n'] textLines)⟩)
            | _, _ => .error ()
        | _ => .error ()
  | _ => .ok none

/-- The block loop of `parse_srt_file` in `srt_to_jsx_converter.py`,
accumulating accepted entries in order; an exception from any block aborts
the whole parse. -/
def parseBlocks_conv : List (List Char) → List Caption → Except Unit (List Caption)
  | [], caps => .ok caps
  | b :: bs, caps =>
      match parseBlock_conv b with
      | .error e => .error e
      | .ok none => parseBlocks_conv bs caps
      | .ok (some r) => parseBlocks_conv bs (caps ++ [r])

/-- `parse_srt_file` of `srt_to_jsx_converter.py` (lines 21–51), applied to
the text content of the file. -/
def parse_srt_file_conv (content : List Char) : Except Unit (List Caption) :=
  parseBlocks_conv (reSplit (pyStrip content)) []

/-- The result of one block of `srt_to_jsx.py`'s parse loop when no exception
occurs (used to describe the parser's output as an order-preserving
`filterMap` over the blocks). -/
def blockRecord_jsx (b : List Char) : Option SubEntry :=
  match parseBlock_jsx b with
  | .ok r => r
  | .error _ => none

/-- Decimal digits of a natural number. -/
def natStr (n : Nat) : List Char := (Nat.repr n).toList

/-- Decimal rendering of an integer. -/
def intStr (i : Int) : List Char :=
  if i < 0 then '-' :: natStr i.natAbs else natStr i.natAbs

/-- Left-pad a digit string with zeros to width `k`. -/
def padZeros (k : Nat) (ds : List Char) : List Char :=
  List.replicate (k - ds.length) '0' ++ ds

/-- Smallest exponent `k < 40` with `d ∣ 10^k`, when one exists (every
denominator arising from a parsed timestamp divides a power of ten). -/
def decExp? (d : Nat) : Option Nat :=
  (List.range 40).find? (fun k => 10 ^ k % d = 0)

/-- Python `str()` of a float, modelled on exact rationals: an integral value
prints with a trailing `.0`; a value with a finite decimal expansion prints
that expansion with no trailing zeros (the minimal exponent is used, matching
`repr` of a float that stores the value exactly); other rationals fall back
to `num/den` (unreachable for the values arising here). -/
def pyFloatRepr (q : Rat) : List Char :=
  let sign : List Char := if q.num < 0 then ['-'] else []
  let n := q.num.natAbs
  if q.den = 1 then sign ++ natStr n ++ ['.', '0']
  else
    match decExp? q.den with
    | some k =>
        let scaled := n * 10 ^ k / q.den
        sign ++ natStr (scaled / 10 ^ k) ++ ['.'] ++ padZeros k (natStr (scaled % 10 ^ k))
    | none => sign ++ natStr n ++ ['/'] ++ natStr q.den

/-- Python `f'{x:.3f}'` formatting, modelled on exact rationals: the value
rounded to three decimal places, printed with exactly three fractional
digits.  (CPython rounds the underlying binary float half-to-even; every
value formatted in this development is an exact multiple of 1/1000, where
all rounding modes agree.) -/
def formatFixed3 (q : Rat) : List Char :=
  let n : Int := round (q * 1000)
  let sign : List Char := if n < 0 then ['-'] else []
  let m := n.natAbs
  sign ++ natStr (m / 1000) ++ ['.'] ++ padZeros 3 (natStr (m % 1000))

/-- The duration argument of the `addComp` call emitted by `generate_jsx`
(`srt_to_jsx.py` line 61): the template holds the literal text `60`,
independent of the subtitle entries. -/
def generate_jsx_comp_duration (_subtitles : List SubEntry) : Rat := 60

/-- Python `max` over the end times of a caption list (a fold of binary
`max`); `max([])` raises in Python, but `generate_jsx_script` is only
reached with a non-empty caption list (`convert_srt_to_jsx` raises
`ValueError` first otherwise), so the `[]` case here (0) is never used. -/
def maxEnds : List Caption → Rat
  | [] => 0
  | c :: cs => cs.foldl (fun m x => max m x.endTime) c.endTime

/-- The duration argument of the `addComp` call emitted by
`generate_jsx_script` (`srt_to_jsx_converter.py` line 60):
`max([cap['end'] for cap in captions]) + 2`. -/
def generate_jsx_script_comp_duration (captions : List Caption) : Rat :=
  maxEnds captions + 2

/-- Rendering of the duration argument in `generate_jsx`'s template: the
source holds the literal text `60`; an integral rational is rendered without
a decimal point so the emitted text coincides with the source template. -/
def ratArgRepr (q : Rat) : List Char :=
  if q.den = 1 then intStr q.num else pyFloatRepr q

/-- Header portion of `generate_jsx` (`srt_to_jsx.py` lines 57–65). -/
def generate_jsx_header (subtitles : List SubEntry) (comp_name : List Char)
    (width height fps : Nat) : List Char :=
  "// Auto-generated After Effects caption script\n// Created from SRT file conversion\n\n// Create new composition\nvar comp = app.project.items.addComp(\"".toList
  ++ comp_name ++ "\", ".toList ++ natStr width ++ ", ".toList ++ natStr height
  ++ ", 1, ".toList ++ ratArgRepr (generate_jsx_comp_duration subtitles)
  ++ ", ".toList ++ natStr fps ++ ");\n\n// Caption data\nvar captions = [\n".toList

/-- One caption-data line of `generate_jsx` (`srt_to_jsx.py` lines 68–72),
with a trailing comma on every line but the last. -/
def jsxEntryLine (total i : Nat) (sub : SubEntry) : List Char :=
  "    \x7bstart: ".toList ++ formatFixed3 sub.start ++ ", end: ".toList
  ++ formatFixed3 sub.endTime ++ ", text: \"".toList ++ sub.text ++ "\"\x7d".toList
  ++ (if i < total - 1 then [','] else []) ++ ['\n']

/-- Fixed tail of `generate_jsx`'s template (`srt_to_jsx.py` lines 74–110). -/
def generate_jsx_footer : List Char :=
  "];\n\n// Create text layers for each caption\nfor (var i = 0; i < captions.length; i++) \x7b\n    var entry = captions[i];\n    \n    // Create text layer\n    var textLayer = comp.layers.addText(entry.text);\n    \n    // Set timing\n    textLayer.startTime = entry.start;\n    textLayer.outPoint = entry.end;\n    textLayer.inPoint = entry.start;\n    \n    // Basic styling\n    var textProp = textLayer.property(\"Source Text\");\n    var textDocument = textProp.value;\n    textDocument.fontSize = 48;\n    textDocument.fillColor = [1, 1, 1]; // White\n    textDocument.font = \"Arial\";\n    textDocument.justification = ParagraphJustification.CENTER_JUSTIFY;\n    textProp.setValue(textDocument);\n    \n    // Position at bottom center\n    var position = textLayer.property(\"Transform\").property(\"Position\");\n    position.setValue([comp.width/2, comp.height - 100]);\n    \n    // Add subtle drop shadow\n    var dropShadow = textLayer.property(\"Effects\").addProperty(\"Drop Shadow\");\n    dropShadow.property(\"Opacity\").setValue(75);\n    dropShadow.property(\"Direction\").setValue(135);\n    dropShadow.property(\"Distance\").setValue(5);\n    dropShadow.property(\"Softness\").setValue(10);\n\x7d\n\nalert(\"Caption import complete! \" + captions.length + \" subtitles added to composition.\");\n".toList

/-- `generate_jsx` of `srt_to_jsx.py` (lines 54–112): header, one caption
data line per entry appended in loop order, fixed tail. -/
def generate_jsx (subtitles : List SubEntry) (comp_name : List Char)
    (width height fps : Nat) : List Char :=
  (subtitles.enum.foldl
    (fun acc p => acc ++ jsxEntryLine subtitles.length p.1 p.2)
    (generate_jsx_header subtitles comp_name width height fps))
  ++ generate_jsx_footer

/-- Header portion of `generate_jsx_script` (`srt_to_jsx_converter.py`
lines 56–70).  The generation timestamp (`datetime.now()` in the source) is
passed in as the parameter `now`. -/
def convHeader (captions : List Caption) (now comp_name : List Char)
    (comp_width comp_height fps : Nat) : List Char :=
  "// Auto-generated After Effects script from SRT file\n// Generated on: ".toList ++ now
  ++ "\n\n// Create new composition\nvar comp = app.project.items.addComp(\"".toList
  ++ comp_name ++ "\", ".toList ++ natStr comp_width ++ ", ".toList ++ natStr comp_height
  ++ ", 1, ".toList ++ pyFloatRepr (generate_jsx_script_comp_duration captions)
  ++ ", ".toList ++ natStr fps
  ++ ");\n\n// Style settings\nvar fontSize = 48;\nvar fontFamily = \"Arial-BoldMT\";\nvar textColor = [1, 1, 1]; // White\nvar strokeColor = [0, 0, 0]; // Black\nvar strokeWidth = 3;\n\n// Add captions\n".toList

/-- The per-caption statement block of `generate_jsx_script`
(`srt_to_jsx_converter.py` lines 76–99): creates and styles one text layer
for caption number `i` (0-based), with the caption text escaped by
`escapeConvGen`. -/
def convChunk (comp_width comp_height : Nat) (i : Nat) (caption : Caption) : List Char :=
  let n := natStr (i + 1)
  let safe_text := escapeConvGen caption.text
  "\n// Caption ".toList ++ n ++ ": ".toList ++ caption.sequence
  ++ "\nvar textLayer".toList ++ n ++ " = comp.layers.addText(\"".toList ++ safe_text
  ++ "\");\nvar textProp".toList ++ n ++ " = textLayer".toList ++ n
  ++ ".property(\"Source Text\");\nvar textDocument".toList ++ n ++ " = textProp".toList ++ n
  ++ ".value;\ntextDocument".toList ++ n ++ ".fontSize = fontSize;\ntextDocument".toList ++ n
  ++ ".font = fontFamily;\ntextDocument".toList ++ n ++ ".fillColor = textColor;\ntextDocument".toList ++ n
  ++ ".strokeColor = strokeColor;\ntextDocument".toList ++ n ++ ".strokeWidth = strokeWidth;\ntextDocument".toList ++ n
  ++ ".strokeOverFill = false;\ntextDocument".toList ++ n ++ ".applyStroke = true;\ntextDocument".toList ++ n
  ++ ".justification = ParagraphJustification.CENTER_JUSTIFY;\ntextProp".toList ++ n
  ++ ".setValue(textDocument".toList ++ n ++ ");\n\n// Position and timing\ntextLayer".toList ++ n
  ++ ".startTime = ".toList ++ pyFloatRepr caption.start ++ ";\ntextLayer".toList ++ n
  ++ ".outPoint = ".toList ++ pyFloatRepr caption.endTime ++ ";\ntextLayer".toList ++ n
  ++ ".inPoint = ".toList ++ pyFloatRepr caption.start
  ++ ";\n\n// Position at bottom center\nvar textPosition".toList ++ n ++ " = textLayer".toList ++ n
  ++ ".property(\"Transform\").property(\"Position\");\ntextPosition".toList ++ n
  ++ ".setValue([".toList ++ pyFloatRepr ((comp_width : Rat) / 2) ++ ", ".toList
  ++ intStr ((comp_height : Int) - 100) ++ "]);\n".toList

/-- Fixed tail of `generate_jsx_script`'s template (`srt_to_jsx_converter.py`
lines 101–104). -/
def convFooter : List Char :=
  "\n// Alert completion\nalert(\"Caption import complete! \" + comp.layers.length + \" text layers created.\");\n".toList

/-- `generate_jsx_script` of `srt_to_jsx_converter.py` (lines 53–106):
header, then the loop `for i, caption in enumerate(captions)` appending one
statement block per caption, then the fixed tail. -/
def generate_jsx_script (captions : List Caption) (now comp_name : List Char)
    (comp_width comp_height fps : Nat) : List Char :=
  (captions.enum.foldl
    (fun acc p => acc ++ convChunk comp_width comp_height p.1 p.2)
    (convHeader captions now comp_name comp_width comp_height fps))
  ++ convFooter

/-- Failure modes of `convert_srt_to_jsx` in `srt_to_jsx_converter.py`:
an exception escaping the parser, or the explicit
`ValueError("No captions found in SRT file")` raised when parsing yields an
empty list (line 117). -/
inductive ConvFailure
  | parseFailure
  | noCaptionsFound
deriving DecidableEq, Repr

/-- `convert_srt_to_jsx` of `srt_to_jsx.py` (lines 114–155), applied to the
input file's content: every step runs inside `try/except`, so a parse
exception yields `False` (here `none`); an empty parse result prints an
error and yields `False` before any file is written; otherwise the generated
script (written to the output file) is produced, with the default
configuration of `generate_jsx`. -/
def convert_srt_to_jsx_jsx (content : List Char) : Option (List Char) :=
  match parse_srt_file_jsx content with
  | .error _ => none
  | .ok subs =>
      if subs.isEmpty then none
      else some (generate_jsx subs "Captions".toList 1920 1080 30)

/-- `convert_srt_to_jsx` of `srt_to_jsx_converter.py` (lines 108–131),
applied to the input file's content: a parse exception propagates to the
caller; an empty parse result raises `ValueError` (`noCaptionsFound`) before
any file is written; otherwise the generated script and the caption count
are returned (the script is what gets written).  The generation timestamp is
passed in as `now`. -/
def convert_srt_to_jsx_conv (content now : List Char) :
    Except ConvFailure (List Char × Nat) :=
  match parse_srt_file_conv content with
  | .error _ => .error .parseFailure
  | .ok caps =>
      if caps.isEmpty then .error .noCaptionsFound
      else .ok (generate_jsx_script caps now "Captions".toList 1920 1080 30, caps.length)

/-- A digit character differs from any non-digit character. -/
theorem isDigit_ne {c : Char} (h : c.isDigit = true) {x : Char}
    (hx : x.isDigit = false) : c ≠ x := by
  rintro rfl
  rw [h] at hx
  exact absurd hx (by decide)

/-- Digit characters are not Python whitespace. -/
theorem isDigit_not_ws {c : Char} (h : c.isDigit = true) : isPyWs c = false := by
  simp only [isPyWs, Bool.or_eq_false_iff, decide_eq_false_iff_not]
  refine ⟨⟨⟨⟨⟨?_, ?_⟩, ?_⟩, ?_⟩, ?_⟩, ?_⟩ <;> exact isDigit_ne h (by decide)

theorem digitsVal_two (a b : Char) :
    digitsVal [a, b] = 10 * digitVal a + digitVal b := by
  simp [digitsVal]

theorem digitsVal_three (a b c : Char) :
    digitsVal [a, b, c] = 100 * digitVal a + 10 * digitVal b + digitVal c := by
  simp [digitsVal]; ring

/-- `pyInt?` on two digit characters. -/
theorem pyInt?_two_digits {a b : Char} (ha : a.isDigit = true) (hb : b.isDigit = true) :
    pyInt? [a, b] = some ((10 * digitVal a + digitVal b : Nat) : Int) := by
  have hwa := isDigit_not_ws ha
  have hwb := isDigit_not_ws hb
  have hpa : a ≠ '+' := isDigit_ne ha (by decide)
  have hma : a ≠ '-' := isDigit_ne ha (by decide)
  simp [pyInt?, pyStrip, List.dropWhile, hwa, hwb, hpa, hma, ha, hb, digitsVal]

/-- `pyFloat?` on `DD.DDD`-shaped input. -/
theorem pyFloat?_frac {e f g1 g2 g3 : Char} (he : e.isDigit = true)
    (hf : f.isDigit = true) (h1 : g1.isDigit = true) (h2 : g2.isDigit = true)
    (h3 : g3.isDigit = true) :
    pyFloat? [e, f, '.', g1, g2, g3] =
      some (((10 * digitVal e + digitVal f : Nat) : Rat)
            + ((100 * digitVal g1 + 10 * digitVal g2 + digitVal g3 : Nat) : Rat) / 1000) := by
  have hwe := isDigit_not_ws he
  have hw3 := isDigit_not_ws h3
  have hpe : e ≠ '+' := isDigit_ne he (by decide)
  have hme : e ≠ '-' := isDigit_ne he (by decide)
  have hde : e ≠ '.' := isDigit_ne he (by decide)
  have hdf : f ≠ '.' := isDigit_ne hf (by decide)
  have hd1 : g1 ≠ '.' := isDigit_ne h1 (by decide)
  have hd2 : g2 ≠ '.' := isDigit_ne h2 (by decide)
  have hd3 : g3 ≠ '.' := isDigit_ne h3 (by decide)
  simp [pyFloat?, pyFloatMag?, pyStrip, List.dropWhile, pySplitChar,
    hwe, hw3, hpe, hme, hde, hdf, hd1, hd2, hd3, he, hf, h1, h2, h3,
    digitsVal]
  have h1000 : ((10 : Rat)) ^ 3 = 1000 := by norm_num
  rw [h1000]
  ring

/-- The exact value `parse_srt_time` computes on a regex-shaped timestamp
`DD:DD:DD,DDD`. -/
theorem parse_srt_time_digits {a b c d e f g1 g2 g3 : Char}
    (ha : a.isDigit = true) (hb : b.isDigit = true) (hc : c.isDigit = true)
    (hd : d.isDigit = true) (he : e.isDigit = true) (hf : f.isDigit = true)
    (h1 : g1.isDigit = true) (h2 : g2.isDigit = true) (h3 : g3.isDigit = true) :
    parse_srt_time [a, b, ':', c, d, ':', e, f, ',', g1, g2, g3] =
      some (((10 * digitVal a + digitVal b : Nat) : Rat) * 3600
            + ((10 * digitVal c + digitVal d : Nat) : Rat) * 60
            + (((10 * digitVal e + digitVal f : Nat) : Rat)
               + ((100 * digitVal g1 + 10 * digitVal g2 + digitVal g3 : Nat) : Rat) / 1000)) := by
  have nca : a ≠ ',' := isDigit_ne ha (by decide)
  have ncb : b ≠ ',' := isDigit_ne hb (by decide)
  have ncc : c ≠ ',' := isDigit_ne hc (by decide)
  have ncd : d ≠ ',' := isDigit_ne hd (by decide)
  have nce : e ≠ ',' := isDigit_ne he (by decide)
  have ncf : f ≠ ',' := isDigit_ne hf (by decide)
  have nc1 : g1 ≠ ',' := isDigit_ne h1 (by decide)
  have nc2 : g2 ≠ ',' := isDigit_ne h2 (by decide)
  have nc3 : g3 ≠ ',' := isDigit_ne h3 (by decide)
  have nka : a ≠ ':' := isDigit_ne ha (by decide)
  have nkb : b ≠ ':' := isDigit_ne hb (by decide)
  have nkc : c ≠ ':' := isDigit_ne hc (by decide)
  have nkd : d ≠ ':' := isDigit_ne hd (by decide)
  have nke : e ≠ ':' := isDigit_ne he (by decide)
  have nkf : f ≠ ':' := isDigit_ne hf (by decide)
  have nk1 : g1 ≠ ':' := isDigit_ne h1 (by decide)
  have nk2 : g2 ≠ ':' := isDigit_ne h2 (by decide)
  have nk3 : g3 ≠ ':' := isDigit_ne h3 (by decide)
  simp [parse_srt_time, pySplitChar, nca, ncb, ncc, ncd, nce, ncf, nc1, nc2, nc3,
    nka, nkb, nkc, nkd, nke, nkf, nk1, nk2, nk3]
  rw [pyInt?_two_digits ha hb, pyInt?_two_digits hc hd, pyFloat?_frac he hf h1 h2 h3]
  push_cast
  ring_nf

/-- A successful `matchTime` group is a twelve-character `DD:DD:DD,DDD`
digit pattern. -/
theorem matchTime_some {cs g rest : List Char} (h : matchTime cs = some (g, rest)) :
    ∃ a b c d e f g1 g2 g3 : Char,
      g = [a, b, ':', c, d, ':', e, f, ',', g1, g2, g3] ∧
      a.isDigit = true ∧ b.isDigit = true ∧ c.isDigit = true ∧ d.isDigit = true ∧
      e.isDigit = true ∧ f.isDigit = true ∧ g1.isDigit = true ∧ g2.isDigit = true ∧
      g3.isDigit = true := by
  unfold matchTime at h
  split at h
  next a b c1 c d c2 e f c3 g1 g2 g3 rest' =>
    split at h
    next cond =>
      simp only [Bool.and_eq_true, decide_eq_true_eq] at cond
      obtain ⟨⟨⟨⟨⟨⟨⟨⟨⟨⟨⟨ha, hb⟩, hc1⟩, hc⟩, hd⟩, hc2⟩, he⟩, hf⟩, hc3⟩, hg1⟩, hg2⟩, hg3⟩ := cond
      injection h with h'
      injection h' with hg hrest
      subst hc1; subst hc2; subst hc3
      exact ⟨a, b, c, d, e, f, g1, g2, g3, hg.symm, ha, hb, hc, hd, he, hf, hg1, hg2, hg3⟩
    next => exact absurd h (by simp)
  next => exact absurd h (by simp)

/-- On any pair of groups produced by the timing-line regular expression,
`parse_srt_time` succeeds. -/
theorem timeLineMatch_parse_isSome {cs g1 g2 : List Char}
    (h : timeLineMatch cs = some (g1, g2)) :
    (parse_srt_time g1).isSome = true ∧ (parse_srt_time g2).isSome = true := by
  unfold timeLineMatch at h
  split at h
  next => exact absurd h (by simp)
  next p1 q1 hm1 =>
    split at h
    case _ r3 =>
      split at h
      next => exact absurd h (by simp)
      next p2 q2 hm2 =>
        injection h with h'
        injection h' with e1 e2
        subst e1; subst e2
        obtain ⟨a, b, c, d, e, f, x1, x2, x3, hg, ha, hb, hc, hd, he, hf, h1, h2, h3⟩ :=
          matchTime_some hm1
        obtain ⟨a', b', c', d', e', f', y1, y2, y3, hg', ha', hb', hc', hd', he', hf', h1', h2', h3'⟩ :=
          matchTime_some hm2
        subst hg; subst hg'
        rw [parse_srt_time_digits ha hb hc hd he hf h1 h2 h3,
          parse_srt_time_digits ha' hb' hc' hd' he' hf' h1' h2' h3']
        exact ⟨rfl, rfl⟩
    next => exact absurd h (by simp)

/-- Digit decomposition of both groups of a successful timing-line match. -/
theorem timeLineMatch_some {cs g1 g2 : List Char}
    (h : timeLineMatch cs = some (g1, g2)) :
    (∃ a b c d e f x1 x2 x3 : Char,
      g1 = [a, b, ':', c, d, ':', e, f, ',', x1, x2, x3] ∧
      a.isDigit = true ∧ b.isDigit = true ∧ c.isDigit = true ∧ d.isDigit = true ∧
      e.isDigit = true ∧ f.isDigit = true ∧ x1.isDigit = true ∧ x2.isDigit = true ∧
      x3.isDigit = true) ∧
    (∃ a b c d e f x1 x2 x3 : Char,
      g2 = [a, b, ':', c, d, ':', e, f, ',', x1, x2, x3] ∧
      a.isDigit = true ∧ b.isDigit = true ∧ c.isDigit = true ∧ d.isDigit = true ∧
      e.isDigit = true ∧ f.isDigit = true ∧ x1.isDigit = true ∧ x2.isDigit = true ∧
      x3.isDigit = true) := by
  unfold timeLineMatch at h
  split at h
  next => exact absurd h (by simp)
  next p1 q1 hm1 =>
    split at h
    case _ r3 =>
      split at h
      next => exact absurd h (by simp)
      next p2 q2 hm2 =>
        injection h with h'
        injection h' with e1 e2
        subst e1; subst e2
        exact ⟨matchTime_some hm1, matchTime_some hm2⟩
    next => exact absurd h (by simp)

/-- `parseBlock_jsx` never raises: the guarding regular expression ensures
both timestamp conversions succeed. -/
theorem parseBlock_jsx_ok (b : List Char) : ∃ r, parseBlock_jsx b = .ok r := by
  unfold parseBlock_jsx
  split
  next timeLine textLines _hEq =>
    by_cases hE : textLines.isEmpty
    · rw [if_pos hE]; exact ⟨none, rfl⟩
    · rw [if_neg hE]
      cases hm : timeLineMatch timeLine with
      | none => exact ⟨none, rfl⟩
      | some p =>
          obtain ⟨g1, g2⟩ := p
          obtain ⟨hd1, hd2⟩ := timeLineMatch_some hm
          obtain ⟨a, b', c, d, e, f, x1, x2, x3, hg, ha, hb, hc, hd, he, hf, h1, h2, h3⟩ := hd1
          obtain ⟨a', b2, c', d', e', f', y1, y2, y3, hg', ha', hb', hc', hd', he', hf', h1', h2', h3'⟩ := hd2
          subst hg; subst hg'
          simp only [parse_srt_time_digits ha hb hc hd he hf h1 h2 h3,
            parse_srt_time_digits ha' hb' hc' hd' he' hf' h1' h2' h3']
          exact ⟨_, rfl⟩
  next => exact ⟨none, rfl⟩

/-- The full block loop of `srt_to_jsx.py` never raises. -/
theorem parseBlocks_jsx_ok : ∀ (bs : List (List Char)) (subs : List SubEntry),
    ∃ l, parseBlocks_jsx bs subs = .ok l := by
  intro bs
  induction bs with
  | nil => intro subs; exact ⟨subs, rfl⟩
  | cons b bs ih =>
      intro subs
      obtain ⟨r, hr⟩ := parseBlock_jsx_ok b
      cases r with
      | none =>
          obtain ⟨l, hl⟩ := ih subs
          exact ⟨l, by simp [parseBlocks_jsx, hr, hl]⟩
      | some x =>
          obtain ⟨l, hl⟩ := ih (subs ++ [x])
          exact ⟨l, by simp [parseBlocks_jsx, hr, hl]⟩

/-- The block loop of `srt_to_jsx.py` computes an order-preserving
`filterMap` of the per-block parser over the block list. -/
theorem parseBlocks_jsx_eq : ∀ (bs : List (List Char)) (subs l : List SubEntry),
    parseBlocks_jsx bs subs = .ok l → l = subs ++ bs.filterMap blockRecord_jsx := by
  intro bs
  induction bs with
  | nil =>
      intro subs l h
      injection h with h
      simp [h.symm]
  | cons b bs ih =>
      intro subs l h
      unfold parseBlocks_jsx at h
      cases hb : parseBlock_jsx b with
      | error e => rw [hb] at h; exact absurd h (by simp)
      | ok r =>
          rw [hb] at h
          cases r with
          | none =>
              have := ih subs l h
              simp [this, List.filterMap_cons, blockRecord_jsx, hb]
          | some x =>
              have := ih (subs ++ [x]) l h
              simp [this, List.filterMap_cons, blockRecord_jsx, hb]

/-- Any record accepted by a block of `srt_to_jsx.py` has non-negative start
and end times (the regex admits only unsigned digit timestamps). -/
theorem parseBlock_jsx_nonneg {b : List Char} {r : SubEntry}
    (h : parseBlock_jsx b = .ok (some r)) : 0 ≤ r.start ∧ 0 ≤ r.endTime := by
  unfold parseBlock_jsx at h
  split at h
  next timeLine textLines _hEq =>
    by_cases hE : textLines.isEmpty
    · rw [if_pos hE] at h; exact absurd h (by simp)
    · rw [if_neg hE] at h
      cases hm : timeLineMatch timeLine with
      | none => rw [hm] at h; exact absurd h (by simp)
      | some p =>
          rw [hm] at h
          obtain ⟨g1, g2⟩ := p
          obtain ⟨hd1, hd2⟩ := timeLineMatch_some hm
          obtain ⟨a, b', c, d, e, f, x1, x2, x3, hg, ha, hb, hc, hd, he, hf, h1, h2, h3⟩ := hd1
          obtain ⟨a', b2, c', d', e', f', y1, y2, y3, hg', ha', hb', hc', hd', he', hf', h1', h2', h3'⟩ := hd2
          subst hg; subst hg'
          simp only [parse_srt_time_digits ha hb hc hd he hf h1 h2 h3,
            parse_srt_time_digits ha' hb' hc' hd' he' hf' h1' h2' h3',
            Except.ok.injEq, Option.some.injEq] at h
          subst h
          constructor <;> positivity
  next => exact absurd h (by simp)

/-- Every record in the output of `srt_to_jsx.py`'s parser comes from some
block accepted by `parseBlock_jsx`. -/
theorem parse_srt_file_jsx_mem {content : List Char} {recs : List SubEntry}
    (h : parse_srt_file_jsx content = .ok recs) :
    ∀ r ∈ recs, ∃ b, parseBlock_jsx b = .ok (some r) := by
  intro r hr
  have heq := parseBlocks_jsx_eq _ _ _ h
  rw [heq] at hr
  simp only [List.nil_append, List.mem_filterMap] at hr
  obtain ⟨b, _, hbr⟩ := hr
  refine ⟨b, ?_⟩
  unfold blockRecord_jsx at hbr
  cases hpb : parseBlock_jsx b with
  | error e => rw [hpb] at hbr; simp at hbr
  | ok o => rw [hpb] at hbr; simp at hbr; rw [hbr]

/-- Auxiliary bound for Python `max` modelled as a fold. -/
theorem le_maxEnds_foldl : ∀ (l : List Caption) (acc : Rat),
    (∀ x ∈ l, x.endTime ≤ l.foldl (fun m x => max m x.endTime) acc) ∧
    acc ≤ l.foldl (fun m x => max m x.endTime) acc := by
  intro l
  induction l with
  | nil => intro acc; exact ⟨by simp, le_refl acc⟩
  | cons c cs ih =>
      intro acc
      obtain ⟨h1, h2⟩ := ih (max acc c.endTime)
      refine ⟨?_, ?_⟩
      · intro x hx
        rcases List.mem_cons.mp hx with hx | hx
        · subst hx
          exact le_trans (le_max_right acc x.endTime) h2
        · exact h1 x hx
      · exact le_trans (le_max_left acc c.endTime) h2

/-- Every caption's end time is bounded by `maxEnds`. -/
theorem mem_le_maxEnds {caps : List Caption} {c : Caption} (h : c ∈ caps) :
    c.endTime ≤ maxEnds caps := by
  cases caps with
  | nil => exact absurd h (by simp)
  | cons c0 cs =>
      unfold maxEnds
      rcases List.mem_cons.mp h with h | h
      · subst h; exact (le_maxEnds_foldl cs c.endTime).2
      · exact (le_maxEnds_foldl cs c0.endTime).1 c h

/-- Exact failure condition of `parse_srt_time`: fewer than three
colon-fields, or one of the first three fields fails numeric parsing.
Fields beyond the third play no role. -/
theorem parse_srt_time_none_iff (cs : List Char) :
    parse_srt_time cs = none ↔
      ((timeParts cs).length < 3 ∨ pyInt? ((timeParts cs).getD 0 []) = none ∨
       pyInt? ((timeParts cs).getD 1 []) = none ∨
       pyFloat? ((timeParts cs).getD 2 []) = none) := by
  unfold parse_srt_time timeParts
  cases hp : pySplitChar ':' (cs.map (fun c => if c = ',' then '.' else c)) with
  | nil => simp [hp, pyInt?, pyStrip]
  | cons p0 t =>
      cases t with
      | nil => simp [hp, pyInt?, pyStrip]
      | cons p1 t2 =>
          cases t2 with
          | nil => simp [hp, pyFloat?, pyStrip]
          | cons p2 rest =>
              cases h0 : pyInt? p0 <;> cases h1 : pyInt? p1 <;>
                cases h2 : pyFloat? p2 <;> simp [hp, h0, h1, h2]

/-- Fields stored by an accepted block of `srt_to_jsx_converter.py`:
the sequence id is the stripped first line, and the text is the stripped
newline-join of the remaining lines, with no escaping applied. -/
theorem parseBlock_conv_fields {b : List Char} {c : Caption} {l0 l1 : List Char}
    {tl : List (List Char)}
    (hs : pySplitChar '\n' (pyStrip b) = l0 :: l1 :: tl)
    (h : parseBlock_conv b = .ok (some c)) :
    c.sequence = pyStrip l0 ∧ c.text = pyStrip (List.intercalate ['\n'] tl) := by
  unfold parseBlock_conv at h
  split at h
  next l0' l1' textLines hEq =>
    rw [hs] at hEq
    injection hEq with e0 hEq'
    injection hEq' with e1 e2
    subst e0; subst e1; subst e2
    by_cases hE : tl.isEmpty
    · rw [if_pos hE] at h; exact absurd h (by simp)
    · rw [if_neg hE] at h
      cases ha : splitArrow (pyStrip l1) with
      | nil => rw [ha] at h; simp at h
      | cons s1 t1 =>
          rw [ha] at h
          cases t1 with
          | nil => simp at h
          | cons s2 t2 =>
              cases t2 with
              | nil =>
                  cases h1 : parse_srt_time s1 with
                  | none => simp [h1] at h
                  | some s =>
                      cases h2 : parse_srt_time s2 with
                      | none => simp [h1, h2] at h
                      | some e =>
                          simp only [h1, h2, Except.ok.injEq, Option.some.injEq] at h
                          subst h
                          exact ⟨rfl, rfl⟩
              | cons s3 t3 => simp at h
  next hne hEq =>
    exact absurd h (by simp)

/-- Appending in a left fold (the `jsx_template += chunk` loop shape) equals
concatenating the mapped chunks after the initial value. -/
theorem foldl_append_flatten {α : Type} (g : α → List Char) :
    ∀ (l : List α) (init : List Char),
      l.foldl (fun acc p => acc ++ g p) init = init ++ (l.map g).flatten := by
  intro l
  induction l with
  | nil => intro init; simp
  | cons x xs ih => intro init; simp [ih]

/-- Stripping a whitespace-only string yields the empty string. -/
theorem pyStrip_ws {cs : List Char} (h : ∀ c ∈ cs, isPyWs c = true) :
    pyStrip cs = [] := by
  unfold pyStrip
  rw [List.dropWhile_eq_nil_iff.mpr h]
  simp

/-- `srt_to_jsx.py` parses a whitespace-only document to the empty list. -/
theorem parse_srt_file_jsx_ws {content : List Char}
    (h : ∀ c ∈ content, isPyWs c = true) :
    parse_srt_file_jsx content = .ok [] := by
  unfold parse_srt_file_jsx
  rw [pyStrip_ws h]
  rfl

/-- `srt_to_jsx_converter.py` parses a whitespace-only document to the empty
list. -/
theorem parse_srt_file_conv_ws {content : List Char}
    (h : ∀ c ∈ content, isPyWs c = true) :
    parse_srt_file_conv content = .ok [] := by
  unfold parse_srt_file_conv
  rw [pyStrip_ws h]
  rfl

/-- Claim C10 (confirmed): in the `srt_to_jsx.py` parser, for every timing
line matched by the guarding regular expression
`(\d{2}:\d{2}:\d{2},\d{3})\s*-->\s*(\d{2}:\d{2}:\d{2},\d{3})`, the timestamp
conversion `parse_srt_time` succeeds on both captured groups, so the
conversion's failure branch is unreachable for regex-matched timestamps. -/
theorem claim10_regex_guarded_conversion_total (timeLine g1 g2 : List Char)
    (h : timeLineMatch timeLine = some (g1, g2)) :
    (parse_srt_time g1).isSome = true ∧ (parse_srt_time g2).isSome = true :=
  timeLineMatch_parse_isSome h

/-- Witness for C10 at a concrete timing line. -/
theorem claim10_witness :
    (parse_srt_time "00:00:01,000".toList).isSome = true ∧
    (parse_srt_time "00:00:03,000".toList).isSome = true :=
  claim10_regex_guarded_conversion_total
    "00:00:01,000 --> 00:00:03,000".toList
    "00:00:01,000".toList "00:00:03,000".toList (by decide)

/-- Claim C7 (confirmed): on every `HH:MM:SS,mmm` timestamp (two digit
hours, two digit minutes, two digit seconds, three digit milliseconds with a
comma separator), `parse_srt_time` returns exactly
`hours*3600 + minutes*60 + seconds` with the milliseconds contributing
the exact fraction `mmm/1000`. -/
theorem claim7_exact_conversion (a b c d e f g1 g2 g3 : Char)
    (ha : a.isDigit = true) (hb : b.isDigit = true) (hc : c.isDigit = true)
    (hd : d.isDigit = true) (he : e.isDigit = true) (hf : f.isDigit = true)
    (h1 : g1.isDigit = true) (h2 : g2.isDigit = true) (h3 : g3.isDigit = true) :
    parse_srt_time [a, b, ':', c, d, ':', e, f, ',', g1, g2, g3] =
      some (((10 * digitVal a + digitVal b : Nat) : Rat) * 3600
            + ((10 * digitVal c + digitVal d : Nat) : Rat) * 60
            + (((10 * digitVal e + digitVal f : Nat) : Rat)
               + ((100 * digitVal g1 + 10 * digitVal g2 + digitVal g3 : Nat) : Rat) / 1000)) :=
  parse_srt_time_digits ha hb hc hd he hf h1 h2 h3

/-- Witness for C7: `"01:02:03,500"` converts to exactly 3723.5 seconds. -/
theorem claim7_witness :
    parse_srt_time "01:02:03,500".toList = some (7447 / 2 : Rat) := by
  have h := claim7_exact_conversion '0' '1' '0' '2' '0' '3' '5' '0' '0'
    (by decide) (by decide) (by decide) (by decide) (by decide) (by decide)
    (by decide) (by decide) (by decide)
  rw [show "01:02:03,500".toList = ['0', '1', ':', '0', '2', ':', '0', '3', ',', '5', '0', '0'] from rfl, h]
  norm_num [digitVal, show '0'.toNat = 48 from rfl, show '1'.toNat = 49 from rfl,
    show '2'.toNat = 50 from rfl, show '3'.toNat = 51 from rfl, show '5'.toNat = 53 from rfl]

/-- Counterexample to C2 as stated: an input splitting into four
colon-delimited fields on which the conversion nevertheless succeeds
(the code never checks the field count; `parts[3]` onward is ignored). -/
theorem claim2_counterexample :
    (pySplitChar ':' "01:02:03,500:99".toList).length = 4 ∧
    parse_srt_time "01:02:03,500:99".toList = some (7447 / 2 : Rat) := by
  constructor
  · decide
  · simp [parse_srt_time, pySplitChar, pyInt?, pyFloat?, pyFloatMag?, pyStrip,
      List.dropWhile, digitsVal, digitVal, isPyWs]
    norm_num

/-- Claim C2 (corrected): `parse_srt_time` fails exactly when the
comma-fixed input splits on `':'` into fewer than three fields, or the
first field fails integer parsing, or the second field fails integer
parsing, or the third field fails floating-point parsing; fields beyond the
third are ignored, so an input with four or more fields succeeds whenever
its first three fields parse. -/
theorem claim2_failure_condition (cs : List Char) :
    parse_srt_time cs = none ↔
      ((timeParts cs).length < 3 ∨ pyInt? ((timeParts cs).getD 0 []) = none ∨
       pyInt? ((timeParts cs).getD 1 []) = none ∨
       pyFloat? ((timeParts cs).getD 2 []) = none) :=
  parse_srt_time_none_iff cs

/-- Counterexample to C5 as stated: `srt_to_jsx.py` emits the constant
composition duration 60, so a record ending at 200 seconds does not fit. -/
theorem claim5_counterexample :
    generate_jsx_comp_duration [⟨1, 200, ['x']⟩] < (200 : Rat) := by
  norm_num [generate_jsx_comp_duration]

/-- Claim C5 (corrected, restricted to `srt_to_jsx_converter.py`): for every
non-empty caption list the emitted composition duration is the maximum end
time plus the fixed padding 2, hence at least every record's end time.
(`srt_to_jsx.py` instead hard-codes a duration of 60.) -/
theorem claim5_duration_bound (caps : List Caption) (_h : caps ≠ []) :
    generate_jsx_script_comp_duration caps = maxEnds caps + 2 ∧
    ∀ c ∈ caps, c.endTime ≤ generate_jsx_script_comp_duration caps := by
  refine ⟨rfl, ?_⟩
  intro c hc
  unfold generate_jsx_script_comp_duration
  have := mem_le_maxEnds hc
  linarith

/-- Witness for C5 at a concrete caption list. -/
theorem claim5_witness :
    generate_jsx_script_comp_duration [⟨['1'], (1 : Rat), (6 : Rat), ['x']⟩] =
      maxEnds [⟨['1'], (1 : Rat), (6 : Rat), ['x']⟩] + 2 ∧
    (⟨['1'], (1 : Rat), (6 : Rat), ['x']⟩ : Caption).endTime ≤
      generate_jsx_script_comp_duration [⟨['1'], (1 : Rat), (6 : Rat), ['x']⟩] := by
  have h := claim5_duration_bound [⟨['1'], (1 : Rat), (6 : Rat), ['x']⟩] (by simp)
  exact ⟨h.1, h.2 _ (by simp)⟩

/-- Claim C8 (confirmed): an empty or whitespace-only document parses to the
empty record list in both scripts without any parse-level error, and both
top-level conversions then fail (no output is produced): `srt_to_jsx.py`
returns `False` and `srt_to_jsx_converter.py` raises its no-captions
`ValueError`, in both cases before writing a file. -/
theorem claim8_empty_document (content : List Char)
    (h : ∀ c ∈ content, isPyWs c = true) :
    parse_srt_file_jsx content = .ok [] ∧
    parse_srt_file_conv content = .ok [] ∧
    convert_srt_to_jsx_jsx content = none ∧
    ∀ now, convert_srt_to_jsx_conv content now = .error .noCaptionsFound := by
  refine ⟨parse_srt_file_jsx_ws h, parse_srt_file_conv_ws h, ?_, ?_⟩
  · unfold convert_srt_to_jsx_jsx
    rw [parse_srt_file_jsx_ws h]
    rfl
  · intro now
    unfold convert_srt_to_jsx_conv
    rw [parse_srt_file_conv_ws h]
    rfl

/-- Witness for C8 at a concrete whitespace-only document. -/
theorem claim8_witness :
    parse_srt_file_jsx "  \n ".toList = .ok [] ∧
    parse_srt_file_conv "  \n ".toList = .ok [] ∧
    convert_srt_to_jsx_jsx "  \n ".toList = none ∧
    convert_srt_to_jsx_conv "  \n ".toList "2026-10-12".toList = .error .noCaptionsFound := by
  have h := claim8_empty_document "  \n ".toList (by decide)
  exact ⟨h.1, h.2.1, h.2.2.1, h.2.2.2 "2026-10-12".toList⟩

/-- Claim C1 (corrected, restricted to `srt_to_jsx.py`): that parser never
raises (every input yields an `ok` result), a block whose second line fails
the timing-line pattern is discarded locally (`ok none`), and the spec's
one-good-one-garbled document yields exactly the one well-formed record.
(`srt_to_jsx_converter.py` instead aborts on such a document — see the
counterexample.) -/
theorem claim1_malformed_block_tolerance :
    (∀ content : List Char, ∃ recs, parse_srt_file_jsx content = .ok recs) ∧
    (∀ (b x timeLine : List Char) (textLines : List (List Char)),
        pySplitChar '\n' (pyStrip b) = x :: timeLine :: textLines →
        timeLineMatch timeLine = none → parseBlock_jsx b = .ok none) ∧
    parse_srt_file_jsx
        "1\n00:00:01,000 --> 00:00:03,000\nHello world\n\n2\nnot a time\nOops".toList =
      .ok [⟨1, 3, "Hello world".toList⟩] := by
  refine ⟨?_, ?_, ?_⟩
  · intro content
    exact parseBlocks_jsx_ok _ _
  · intro b x timeLine textLines hs hnm
    unfold parseBlock_jsx
    split
    next tl' tls' hEq =>
      rw [hs] at hEq
      injection hEq with e0 hEq'
      injection hEq' with e1 e2
      subst e1
      subst e2
      by_cases hE : textLines.isEmpty
      · rw [if_pos hE]
      · rw [if_neg hE, hnm]
    next => rfl
  · simp [parse_srt_file_jsx, pyStrip, isPyWs, reSplit, reSplitAux,
      parseBlocks_jsx, parseBlock_jsx, pySplitChar, timeLineMatch, matchTime,
      parse_srt_time, pyInt?, pyFloat?, pyFloatMag?, digitsVal, digitVal,
      escapeJsxParse, replaceChar, List.intercalate]

/-- Witness for C1: the garbled block of the counterexample document is
discarded locally by `srt_to_jsx.py`'s per-block parser. -/
theorem claim1_witness :
    parseBlock_jsx "2\nnot a time\nOops".toList = .ok none :=
  claim1_malformed_block_tolerance.2.1 "2\nnot a time\nOops".toList
    "2".toList "not a time".toList ["Oops".toList] (by decide) (by decide)

/-- Counterexample to C1 as stated: on the same one-good-one-garbled
document, `srt_to_jsx_converter.py`'s parser raises (the `' --> '` unpacking
fails), aborting the whole parse instead of discarding the garbled block. -/
theorem claim1_counterexample :
    parse_srt_file_conv
        "1\n00:00:01,000 --> 00:00:03,000\nHello world\n\n2\nnot a time\nOops".toList =
      .error () := by
  decide

/-- Claim C3 (corrected, restricted to `srt_to_jsx.py`): every record of a
successful parse has non-negative (hence finite, in this exact-rational
model) start and end times.  The relation `endSeconds > startSeconds` is
NOT enforced — see the counterexample. -/
theorem claim3_nonneg_times (content : List Char) (recs : List SubEntry)
    (h : parse_srt_file_jsx content = .ok recs) :
    ∀ r ∈ recs, 0 ≤ r.start ∧ 0 ≤ r.endTime := by
  intro r hr
  obtain ⟨b, hb⟩ := parse_srt_file_jsx_mem h r hr
  exact parseBlock_jsx_nonneg hb

/-- Witness for C3 on a concrete document. -/
theorem claim3_witness :
    (0 : Rat) ≤ (⟨1, 3, "Hello world".toList⟩ : SubEntry).start ∧
    (0 : Rat) ≤ (⟨1, 3, "Hello world".toList⟩ : SubEntry).endTime := by
  have hp : parse_srt_file_jsx "1\n00:00:01,000 --> 00:00:03,000\nHello world".toList =
      .ok [⟨1, 3, "Hello world".toList⟩] := by
    simp [parse_srt_file_jsx, pyStrip, isPyWs, reSplit, reSplitAux,
      parseBlocks_jsx, parseBlock_jsx, pySplitChar, timeLineMatch, matchTime,
      parse_srt_time, pyInt?, pyFloat?, pyFloatMag?, digitsVal, digitVal,
      escapeJsxParse, replaceChar, List.intercalate]
  exact claim3_nonneg_times _ _ hp ⟨1, 3, "Hello world".toList⟩ (by simp)

/-- Counterexample to C3 as stated: a reversed timing line in
`srt_to_jsx.py` produces a record with `endSeconds < startSeconds` instead
of being dropped, and `srt_to_jsx_converter.py` (which has no regex guard)
even accepts a negative start time. -/
theorem claim3_counterexample :
    parse_srt_file_jsx "1\n00:00:05,000 --> 00:00:01,000\nHello".toList =
      .ok [⟨5, 1, "Hello".toList⟩] ∧
    ¬((5 : Rat) < 1) ∧
    parse_srt_file_conv "1\n-1:00:00,000 --> 00:00:02,000\nOops".toList =
      .ok [⟨"1".toList, -3600, 2, "Oops".toList⟩] ∧
    ¬((0 : Rat) ≤ -3600) := by
  refine ⟨?_, by norm_num, ?_, by norm_num⟩
  · simp [parse_srt_file_jsx, pyStrip, isPyWs, reSplit, reSplitAux,
      parseBlocks_jsx, parseBlock_jsx, pySplitChar, timeLineMatch, matchTime,
      parse_srt_time, pyInt?, pyFloat?, pyFloatMag?, digitsVal, digitVal,
      escapeJsxParse, replaceChar, List.intercalate]
  · simp [parse_srt_file_conv, pyStrip, isPyWs, reSplit, reSplitAux,
      parseBlocks_conv, parseBlock_conv, pySplitChar, splitArrow,
      parse_srt_time, pyInt?, pyFloat?, pyFloatMag?, digitsVal, digitVal,
      List.intercalate]

/-- Claim C6 (corrected): the sequence id stored by
`srt_to_jsx_converter.py` is the block's first line with surrounding
whitespace stripped (still opaque text, neither parsed as a number nor
renumbered), not the verbatim line.  (`srt_to_jsx.py` does not store a
sequence id at all.) -/
theorem claim6_sequence_stripped (b : List Char) (c : Caption) (l0 : List Char)
    (rest : List (List Char))
    (hs : pySplitChar '\n' (pyStrip b) = l0 :: rest)
    (h : parseBlock_conv b = .ok (some c)) :
    c.sequence = pyStrip l0 := by
  cases rest with
  | nil =>
      unfold parseBlock_conv at h
      split at h
      next l1' tl' hEq =>
        rw [hs] at hEq
        injection hEq with e0 hEq'
        exact absurd hEq' (by simp)
      next hne hEq => exact absurd h (by simp)
  | cons l1 tl => exact (parseBlock_conv_fields hs h).1

/-- Witness for C6 at a concrete block with a trailing space on line 1. -/
theorem claim6_witness :
    (⟨"1".toList, 1, 2, "Hi".toList⟩ : Caption).sequence = pyStrip "1 ".toList := by
  have h : parseBlock_conv "1 \n00:00:01,000 --> 00:00:02,000\nHi".toList =
      .ok (some ⟨"1".toList, 1, 2, "Hi".toList⟩) := by
    simp [parseBlock_conv, pyStrip, isPyWs, pySplitChar, splitArrow,
      parse_srt_time, pyInt?, pyFloat?, pyFloatMag?, digitsVal, digitVal,
      List.intercalate]
  exact claim6_sequence_stripped "1 \n00:00:01,000 --> 00:00:02,000\nHi".toList _
    "1 ".toList ["00:00:01,000 --> 00:00:02,000".toList, "Hi".toList] (by decide) h

/-- Counterexample to C6 as stated: for a block whose first line is `"1 "`
(trailing space), the stored sequence id is `"1"`, not the verbatim first
line. -/
theorem claim6_counterexample :
    parse_srt_file_conv "1 \n00:00:01,000 --> 00:00:02,000\nHi".toList =
      .ok [⟨"1".toList, 1, 2, "Hi".toList⟩] ∧
    (pySplitChar '\n' (pyStrip "1 \n00:00:01,000 --> 00:00:02,000\nHi".toList)).getD 0 [] =
      "1 ".toList ∧
    "1".toList ≠ "1 ".toList := by
  refine ⟨?_, by decide, by decide⟩
  simp [parse_srt_file_conv, pyStrip, isPyWs, reSplit, reSplitAux,
    parseBlocks_conv, parseBlock_conv, pySplitChar, splitArrow,
    parse_srt_time, pyInt?, pyFloat?, pyFloatMag?, digitsVal, digitVal,
    List.intercalate]

/-- Claim C9 (confirmed): the `srt_to_jsx.py` parser returns the accepted
records as an order-preserving `filterMap` over the source blocks (records
appear in source-block order), and the converter's generator emits exactly
one text-layer statement block per record, in list order. -/
theorem claim9_record_order :
    (∀ (content : List Char) (recs : List SubEntry),
        parse_srt_file_jsx content = .ok recs →
        recs = (reSplit (pyStrip content)).filterMap blockRecord_jsx) ∧
    (∀ (caps : List Caption) (now name : List Char) (w ht fps : Nat),
        generate_jsx_script caps now name w ht fps =
          convHeader caps now name w ht fps
          ++ (caps.enum.map (fun p => convChunk w ht p.1 p.2)).flatten
          ++ convFooter ∧
        (caps.enum.map (fun p => convChunk w ht p.1 p.2)).length = caps.length) := by
  constructor
  · intro content recs h
    simpa using parseBlocks_jsx_eq _ _ _ h
  · intro caps now name w ht fps
    constructor
    · unfold generate_jsx_script
      rw [foldl_append_flatten (fun p => convChunk w ht p.1 p.2) caps.enum]
    · simp [List.enum_length]

/-- Witness for C9 on the spec's two-cue document. -/
theorem claim9_witness :
    [(⟨1, 3, "Hello world".toList⟩ : SubEntry), ⟨9 / 2, 6, "Second line".toList⟩] =
      (reSplit (pyStrip "1\n00:00:01,000 --> 00:00:03,000\nHello world\n\n2\n00:00:04,500 --> 00:00:06,000\nSecond line".toList)).filterMap
        blockRecord_jsx := by
  have hp : parse_srt_file_jsx
      "1\n00:00:01,000 --> 00:00:03,000\nHello world\n\n2\n00:00:04,500 --> 00:00:06,000\nSecond line".toList =
      .ok [⟨1, 3, "Hello world".toList⟩, ⟨9 / 2, 6, "Second line".toList⟩] := by
    simp [parse_srt_file_jsx, pyStrip, isPyWs, reSplit, reSplitAux,
      parseBlocks_jsx, parseBlock_jsx, pySplitChar, timeLineMatch, matchTime,
      parse_srt_time, pyInt?, pyFloat?, pyFloatMag?, digitsVal, digitVal,
      escapeJsxParse, replaceChar, List.intercalate]
    norm_num
  exact claim9_record_order.1 _ _ hp

set_option maxRecDepth 8192 in
/-- Claim C4 (corrected, restricted to `srt_to_jsx_converter.py`): that
parser stores the cue text with quote characters exactly as in the source
(the stripped newline-join of the text lines, no escaping), and escaping is
applied only by the generator, whose per-caption block embeds
`escapeConvGen` of the record's text.  (`srt_to_jsx.py` instead escapes
quotes at parse time — see the counterexample.) -/
theorem claim4_parse_time_text_verbatim :
    (∀ (b : List Char) (c : Caption) (l0 l1 : List Char) (tl : List (List Char)),
        pySplitChar '\n' (pyStrip b) = l0 :: l1 :: tl →
        parseBlock_conv b = .ok (some c) →
        c.text = pyStrip (List.intercalate ['\n'] tl)) ∧
    (∀ (w ht i : Nat) (c : Caption),
        convChunk w ht i c =
          ("\n// Caption ".toList ++ natStr (i + 1) ++ ": ".toList ++ c.sequence
            ++ "\nvar textLayer".toList ++ natStr (i + 1)
            ++ " = comp.layers.addText(\"".toList)
          ++ escapeConvGen c.text
          ++ ("\");\nvar textProp".toList ++ natStr (i + 1) ++ " = textLayer".toList
            ++ natStr (i + 1) ++ ".property(\"Source Text\");\nvar textDocument".toList
            ++ natStr (i + 1) ++ " = textProp".toList ++ natStr (i + 1)
            ++ ".value;\ntextDocument".toList ++ natStr (i + 1)
            ++ ".fontSize = fontSize;\ntextDocument".toList ++ natStr (i + 1)
            ++ ".font = fontFamily;\ntextDocument".toList ++ natStr (i + 1)
            ++ ".fillColor = textColor;\ntextDocument".toList ++ natStr (i + 1)
            ++ ".strokeColor = strokeColor;\ntextDocument".toList ++ natStr (i + 1)
            ++ ".strokeWidth = strokeWidth;\ntextDocument".toList ++ natStr (i + 1)
            ++ ".strokeOverFill = false;\ntextDocument".toList ++ natStr (i + 1)
            ++ ".applyStroke = true;\ntextDocument".toList ++ natStr (i + 1)
            ++ ".justification = ParagraphJustification.CENTER_JUSTIFY;\ntextProp".toList
            ++ natStr (i + 1) ++ ".setValue(textDocument".toList ++ natStr (i + 1)
            ++ ");\n\n// Position and timing\ntextLayer".toList ++ natStr (i + 1)
            ++ ".startTime = ".toList ++ pyFloatRepr c.start ++ ";\ntextLayer".toList
            ++ natStr (i + 1) ++ ".outPoint = ".toList ++ pyFloatRepr c.endTime
            ++ ";\ntextLayer".toList ++ natStr (i + 1) ++ ".inPoint = ".toList
            ++ pyFloatRepr c.start
            ++ ";\n\n// Position at bottom center\nvar textPosition".toList
            ++ natStr (i + 1) ++ " = textLayer".toList ++ natStr (i + 1)
            ++ ".property(\"Transform\").property(\"Position\");\ntextPosition".toList
            ++ natStr (i + 1) ++ ".setValue([".toList ++ pyFloatRepr ((w : Rat) / 2)
            ++ ", ".toList ++ intStr ((ht : Int) - 100) ++ "]);\n".toList)) := by
  constructor
  · intro b c l0 l1 tl hs h
    exact (parseBlock_conv_fields hs h).2
  · intro w ht i c
    simp [convChunk]

/-- Witness for C4: the stored text of a concrete cue whose text contains a
quote is the verbatim source text. -/
theorem claim4_witness :
    (⟨"1".toList, 1, 2, "He said \"hi\"".toList⟩ : Caption).text =
      pyStrip (List.intercalate ['\n'] ["He said \"hi\"".toList]) := by
  have h : parseBlock_conv "1\n00:00:01,000 --> 00:00:02,000\nHe said \"hi\"".toList =
      .ok (some ⟨"1".toList, 1, 2, "He said \"hi\"".toList⟩) := by
    simp [parseBlock_conv, pyStrip, isPyWs, pySplitChar, splitArrow,
      parse_srt_time, pyInt?, pyFloat?, pyFloatMag?, digitsVal, digitVal,
      List.intercalate]
  exact claim4_parse_time_text_verbatim.1
    "1\n00:00:01,000 --> 00:00:02,000\nHe said \"hi\"".toList _
    "1".toList "00:00:01,000 --> 00:00:02,000".toList ["He said \"hi\"".toList]
    (by decide) h

/-- Counterexample to C4 as stated: `srt_to_jsx.py` escapes quotes at parse
time — the stored text for the cue text `He said "hi"` is `He said \"hi\"`,
which differs from the source text. -/
theorem claim4_counterexample :
    parse_srt_file_jsx "1\n00:00:01,000 --> 00:00:02,000\nHe said \"hi\"".toList =
      .ok [⟨1, 2, "He said \\\"hi\\\"".toList⟩] ∧
    "He said \\\"hi\\\"".toList ≠ "He said \"hi\"".toList := by
  refine ⟨?_, by decide⟩
  simp [parse_srt_file_jsx, pyStrip, isPyWs, reSplit, reSplitAux,
    parseBlocks_jsx, parseBlock_jsx, pySplitChar, timeLineMatch, matchTime,
    parse_srt_time, pyInt?, pyFloat?, pyFloatMag?, digitsVal, digitVal,
    escapeJsxParse, replaceChar, List.intercalate]
